import Mathlib

/-!
Shallow embedding of `src/part-4/app.py`, a Flask + SQLAlchemy REST API over a
single `Book` table, together with proofs about the claims of its
specification.  The database is modelled as a list of rows plus the next
surrogate key the storage will assign; each HTTP handler becomes a pure Lean
function from the database state and the decoded request to a response (and,
for mutating handlers, a new state).
-/

namespace BookApi

/-- The `Book` model (`class Book(db.Model)`): integer surrogate primary key,
`title` and `author` are NOT NULL strings, `year` is a nullable integer,
`isbn` a nullable string, `created_at` a nullable timestamp filled by the
column default `datetime.utcnow` on insert (modelled as a `Nat` clock value). -/
structure Book where
  id : Nat
  title : String
  author : String
  year : Option Int
  isbn : Option String
  created_at : Option Nat
deriving DecidableEq, Inhabited

/-- Durable storage for the `Book` table: the rows in storage order, plus the
next primary key the database will assign to an inserted row (SQLite assigns
increasing integer rowids). -/
structure DB where
  books : List Book
  nextId : Nat
deriving DecidableEq

/-- JSON response of the single-book endpoints (`get_book`, `create_book`,
`update_book`, `delete_book`): HTTP status code plus the `success`, `error`,
`message` and `book` fields that the handlers place in the JSON body. -/
structure BookResp where
  status : Nat
  success : Bool
  error : Option String := none
  message : Option String := none
  book : Option Book := none
deriving DecidableEq

/-- Decoded JSON body of a create request.  `none` in `title`, `author`,
`year`, `isbn` means the key is absent (or explicitly `null`, which
`data.get` makes indistinguishable from absent); `extra` records whether the
parsed object carries any further keys, so that Python dict truthiness
(`if not data`) is modelled exactly. -/
structure CreateData where
  title : Option String := none
  author : Option String := none
  year : Option Int := none
  isbn : Option String := none
  extra : Bool := false
deriving DecidableEq

/-- Python truthiness of a parsed create body: an empty dict is falsy. -/
def CreateData.isEmptyDict (d : CreateData) : Bool :=
  d.title.isNone && d.author.isNone && d.year.isNone && d.isbn.isNone && !d.extra

/-- Decoded JSON body of an update request.  The outer `Option` of each field
records whether the key is present (the Python membership test on the parsed
dict); for the nullable
columns `year` and `isbn` the inner `Option` is the JSON value itself, which
may be `null`.  `extra` records further keys of the object. -/
structure UpdateData where
  title : Option String := none
  author : Option String := none
  year : Option (Option Int) := none
  isbn : Option (Option String) := none
  extra : Bool := false
deriving DecidableEq

/-- Python truthiness of a parsed update body: an empty dict is falsy. -/
def UpdateData.isEmpty (d : UpdateData) : Bool :=
  d.title.isNone && d.author.isNone && d.year.isNone && d.isbn.isNone && !d.extra

/-- Python truthiness of `data.get(key)` for a string-valued key: truthy
exactly when the key is present with a non-empty string. -/
def truthy : Option String → Bool
  | none => false
  | some s => s ≠ ""

/-- The row lookup `Book.query.get(id)`: the (unique, since `id` is the
primary key) row with the given key, if any. -/
def findBook (db : DB) (id : Nat) : Option Book :=
  db.books.find? (fun b => b.id == id)

/-- Committing a mutation of the ORM object fetched by primary key: replace
the first row carrying the key.  Since `id` is the primary key there is at
most one such row in a well-formed database. -/
def setBook (books : List Book) (id : Nat) (b2 : Book) : List Book :=
  match books with
  | [] => []
  | b :: rest => if b.id == id then b2 :: rest else b :: setBook rest id b2

/-- Committing `db.session.delete(book)` for the row fetched by primary key:
remove the first row carrying the key. -/
def removeBook (books : List Book) (id : Nat) : List Book :=
  match books with
  | [] => []
  | b :: rest => if b.id == id then rest else b :: removeBook rest id

/-- The mapped columns of the `Book` model: the attributes on which
`getattr(Book, c)` yields a column object supporting `.asc()`/`.desc()`. -/
def bookColumns : List String :=
  ["id", "title", "author", "year", "isbn", "created_at"]

/-- Non-column attributes of the Python `Book` class for which
`hasattr(Book, c)` is also true: the method defined in the source plus
attributes the declarative base and the extension add to every model class.
The list is representative, not exhaustive; the value of `getattr` on each
supports neither `.asc()` nor `.desc()`, so the sorting branch raises
`AttributeError` for all of them. -/
def bookExtraAttrs : List String :=
  ["to_dict", "query", "metadata", "registry", "__init__", "__tablename__"]

/-- Model of `hasattr(Book, c)`: true on the mapped columns and on the
non-column class attributes. -/
def hasattrBook (c : String) : Bool :=
  bookColumns.contains c || bookExtraAttrs.contains c

/-- The uncaught Python exception raised by `col.asc()` or `col.desc()` when
the sort parameter names a non-column attribute of the class; it escapes the
handler and surfaces as a generic server error. -/
def attributeErrorAsc : String :=
  "AttributeError: object has no attribute asc or desc"

/-- Lexicographic codepoint order on strings, the SQLite default BINARY
collation used by `order_by` on text columns. -/
def leChars : List Char → List Char → Bool
  | [], _ => true
  | _ :: _, [] => false
  | c :: cs, d :: ds => c.toNat < d.toNat || (c = d && leChars cs ds)

/-- SQL ordering on a nullable column: NULLs sort first in ascending order
(the SQLite behaviour). -/
def optLeBy (le : α → α → Bool) : Option α → Option α → Bool
  | none, _ => true
  | some _, none => false
  | some a, some b => le a b

/-- Ascending comparison for `order_by(getattr(Book, c).asc())`, by column
name. -/
def fieldLe (c : String) (a b : Book) : Bool :=
  if c = "id" then a.id ≤ b.id
  else if c = "title" then leChars a.title.data b.title.data
  else if c = "author" then leChars a.author.data b.author.data
  else if c = "year" then optLeBy (fun x y : Int => x ≤ y) a.year b.year
  else if c = "isbn" then optLeBy (fun x y => leChars x.data y.data) a.isbn b.isbn
  else if c = "created_at" then optLeBy (fun x y : Nat => x ≤ y) a.created_at b.created_at
  else true

/-- Insertion step of the sort used to model `ORDER BY` (SQL leaves the
relative order of ties unspecified; any sort w.r.t. the column order is a
faithful model). -/
def insertLe (le : Book → Book → Bool) (x : Book) : List Book → List Book
  | [] => [x]
  | y :: ys => if le x y then x :: y :: ys else y :: insertLe le x ys

/-- Sorting a result set w.r.t. a boolean comparison, modelling `ORDER BY`. -/
def sortByLe (le : Book → Book → Bool) : List Book → List Book
  | [] => []
  | x :: xs => insertLe le x (sortByLe le xs)

/-- Model of Python `str.lower()` on the ASCII range (the only characters the
handlers compare against). -/
def pyLowerChar (c : Char) : Char :=
  if 'A' ≤ c ∧ c ≤ 'Z' then Char.ofNat (c.toNat + 32) else c

/-- Model of Python `str.lower()`. -/
def pyLower (s : String) : String :=
  String.mk (s.data.map pyLowerChar)

/-- Steps 3 and 4 of `get_books`: the base query with the sorting logic of the
handler applied.  The branch is taken only when `hasattr(Book, sort_column)`;
inside it, `getattr` on a non-column attribute yields an object with neither
`.asc()` nor `.desc()`, so both order branches raise an uncaught
AttributeError.  On a column, a lowercased order equal to "desc" selects the
descending order, anything else the ascending one. -/
def sortedBooks (books : List Book) (sort_column order : String) :
    Except String (List Book) :=
  if hasattrBook sort_column then
    if bookColumns.contains sort_column then
      if pyLower order = "desc" then
        Except.ok (sortByLe (fun a b => fieldLe sort_column b a) books)
      else
        Except.ok (sortByLe (fieldLe sort_column) books)
    else Except.error attributeErrorAsc
  else Except.ok books

/-- flask_sqlalchemy `paginate` with `error_out=False` clamps a page below 1
to 1. -/
def clampPage (page : Nat) : Nat :=
  if page < 1 then 1 else page

/-- flask_sqlalchemy `paginate` with `error_out=False` replaces a `per_page`
below 1 by the library default 20. -/
def clampPerPage (per_page : Nat) : Nat :=
  if per_page < 1 then 20 else per_page

/-- The items of the requested page: `pagination.items` of
`query.paginate(page, per_page, error_out=False)`. -/
def paginateItems (books : List Book) (page per_page : Nat) : List Book :=
  (books.drop ((clampPage page - 1) * clampPerPage per_page)).take
    (clampPerPage per_page)

/-- `pagination.pages`: the ceiling of total over per_page (0 when the table
is empty). -/
def totalPages (total per_page : Nat) : Nat :=
  (total + clampPerPage per_page - 1) / clampPerPage per_page

/-- JSON response of the list endpoint `GET /api/books`. -/
structure ListResponse where
  status : Nat
  success : Bool
  count : Nat
  total_books : Nat
  total_pages : Nat
  current_page : Nat
  sort : String
  order : String
  books : List Book
deriving DecidableEq

/-- Handler `get_books` for `GET /api/books`: sorting (skipped when the sort
parameter is not a `Book` attribute, crashing when it is a non-column
attribute), pagination with `error_out=False`, and the JSON payload echoing
the parameters.  `Except.error` models an exception escaping the handler. -/
def get_books (db : DB) (sort_column order : String) (page per_page : Nat) :
    Except String ListResponse :=
  match sortedBooks db.books sort_column order with
  | Except.error e => Except.error e
  | Except.ok sorted =>
      let items := paginateItems sorted page per_page
      Except.ok
        { status := 200
          success := true
          count := items.length
          total_books := sorted.length
          total_pages := totalPages sorted.length per_page
          current_page := clampPage page
          sort := sort_column
          order := order
          books := items }

/-- Handler `get_book` for `GET /api/books/<id>`. -/
def get_book (db : DB) (id : Nat) : BookResp :=
  match findBook db id with
  | none => { status := 404, success := false, error := some "Book not found" }
  | some b => { status := 200, success := true, book := some b }

/-- Whether two rows violate the storage UNIQUE constraint on `isbn`
declared by `unique=True` on the column (app.py line 36): equal non-NULL
isbn values clash; NULLs never clash (SQLite allows any number of NULLs in
a UNIQUE column). -/
def isbnClash (a b : Book) : Bool :=
  match a.isbn, b.isbn with
  | some s, some t => s == t
  | _, _ => false

/-- Whether some two distinct rows of the table clash on `isbn`: the
condition under which an INSERT or UPDATE commit raises IntegrityError. -/
def anyClash : List Book → Bool
  | [] => false
  | b :: rest => rest.any (fun x => isbnClash b x) || anyClash rest

/-- The uncaught exception raised by `db.session.commit()` when the written
table would violate UNIQUE(isbn); it escapes the handler (generic server
error) and the transaction is rolled back, so nothing is persisted. -/
def integrityErrorIsbn : String :=
  "IntegrityError: UNIQUE constraint failed: book.isbn"

/-- The row inserted by a successful create: storage assigns the next
surrogate key and the `created_at` column default fills in the server
clock. -/
def newBook (db : DB) (d : CreateData) (now : Nat) : Book :=
  { id := db.nextId
    title := d.title.getD ""
    author := d.author.getD ""
    year := d.year
    isbn := d.isbn
    created_at := some now }

/-- Handler `create_book` for `POST /api/books`: body presence check, the
required-field check on `title`/`author` (Python truthiness, so empty strings
fail), the duplicate-ISBN existence check when a truthy `isbn` is given, then
insert and commit.  The truthiness guard skips the existence check for an
isbn given as the empty string, so the INSERT can still violate UNIQUE(isbn)
at commit, raising an uncaught IntegrityError (`Except.error`).
`data = none` models a missing or unparseable body. -/
def create_book (db : DB) (data : Option CreateData) (now : Nat) :
    Except String (BookResp × DB) :=
  match data with
  | none =>
      Except.ok
        ({ status := 400, success := false, error := some "No data provided" }, db)
  | some d =>
      if d.isEmptyDict then
        Except.ok
          ({ status := 400, success := false, error := some "No data provided" }, db)
      else if !truthy d.title || !truthy d.author then
        Except.ok
          ({ status := 400, success := false,
             error := some "Title and author are required" }, db)
      else if truthy d.isbn && (db.books.find? (fun b => b.isbn == d.isbn)).isSome then
        Except.ok
          ({ status := 400, success := false, error := some "ISBN already exists" }, db)
      else
        let nb := newBook db d now
        if anyClash (db.books ++ [nb]) then
          Except.error integrityErrorIsbn
        else
          Except.ok
            ({ status := 201, success := true,
               message := some "Book created successfully", book := some nb },
             { books := db.books ++ [nb], nextId := db.nextId + 1 })

/-- The field assignments of `update_book`: each column present in the body
overwrites the fetched row, absent columns are untouched. -/
def applyUpdate (d : UpdateData) (b : Book) : Book :=
  { b with
    title := d.title.getD b.title
    author := d.author.getD b.author
    year := d.year.getD b.year
    isbn := d.isbn.getD b.isbn }

/-- Handler `update_book` for `PUT /api/books/<id>`: 404 when the id is
absent, 400 when the body is missing or an empty object, otherwise overwrite
exactly the supplied fields and commit.  The handler itself performs no ISBN
uniqueness re-check, but the commit of the UPDATE is still subject to the
storage UNIQUE(isbn) constraint: a violating write raises an uncaught
IntegrityError (`Except.error`) and the transaction is rolled back. -/
def update_book (db : DB) (id : Nat) (data : Option UpdateData) :
    Except String (BookResp × DB) :=
  match findBook db id with
  | none =>
      Except.ok
        ({ status := 404, success := false, error := some "Book not found" }, db)
  | some book =>
      match data with
      | none =>
          Except.ok
            ({ status := 400, success := false, error := some "No data provided" }, db)
      | some d =>
          if d.isEmpty then
            Except.ok
              ({ status := 400, success := false, error := some "No data provided" }, db)
          else
            let book2 := applyUpdate d book
            if anyClash (setBook db.books id book2) then
              Except.error integrityErrorIsbn
            else
              Except.ok
                ({ status := 200, success := true,
                   message := some "Book updated successfully", book := some book2 },
                 { db with books := setBook db.books id book2 })

/-- Handler `delete_book` for `DELETE /api/books/<id>`. -/
def delete_book (db : DB) (id : Nat) : BookResp × DB :=
  match findBook db id with
  | none =>
      ({ status := 404, success := false, error := some "Book not found" }, db)
  | some _ =>
      ({ status := 200, success := true,
         message := some "Book deleted successfully" },
       { db with books := removeBook db.books id })

/-- Whether `pat` is a prefix of `hay` (character lists). -/
def startsWithChars : List Char → List Char → Bool
  | [], _ => true
  | _ :: _, [] => false
  | c :: cs, d :: ds => c = d && startsWithChars cs ds

/-- Whether `pat` occurs as a contiguous substring of `hay` (character
lists). -/
def containsChars (pat : List Char) : List Char → Bool
  | [] => startsWithChars pat []
  | d :: ds => startsWithChars pat (d :: ds) || containsChars pat ds

/-- Model of the SQL ilike filter with the pattern wrapped in percent
wildcards: case-insensitive substring match. -/
def ilikeContains (hay pat : String) : Bool :=
  containsChars (pyLower pat).data (pyLower hay).data

/-- Value of a decimal digit character, if it is one. -/
def digitVal (c : Char) : Option Nat :=
  if '0' ≤ c ∧ c ≤ '9' then some (c.toNat - '0'.toNat) else none

/-- Value of a non-empty run of decimal digits. -/
def digitsVal : List Char → Option Nat
  | [] => none
  | cs =>
      cs.foldl
        (fun acc c =>
          match acc, digitVal c with
          | some n, some d => some (n * 10 + d)
          | _, _ => none)
        (some 0)

/-- Model of Python `int(s)` on request strings: an optional sign followed by
one or more decimal digits; any other string raises `ValueError` (modelled as
`none`). -/
def pyInt? (s : String) : Option Int :=
  match s.data with
  | '-' :: rest => (digitsVal rest).map (fun n => -(n : Int))
  | '+' :: rest => (digitsVal rest).map (fun n => (n : Int))
  | cs => (digitsVal cs).map (fun n => (n : Int))

/-- JSON response of the search endpoint `GET /api/books/search`. -/
structure SearchResp where
  status : Nat
  success : Bool
  count : Nat
  books : List Book
deriving DecidableEq

/-- The uncaught Python exception raised by `int(year)` on a non-numeric
string; it escapes the handler and surfaces as a generic server error. -/
def yearValueError : String :=
  "ValueError: invalid literal for int() with base 10"

/-- Handler `search_books` for `GET /api/books/search`: conjunctive filters on
`q` (title substring, case-insensitive), `author` (likewise) and `year`
(exact, via `int(year)`).  A filter runs only when its parameter is truthy
(present and non-empty).  `Except.error` models an exception escaping the
handler; every structured JSON response of this handler is a 200. -/
def search_books (db : DB) (q author year : Option String) :
    Except String SearchResp :=
  let b1 :=
    match q with
    | some t => if t ≠ "" then db.books.filter (fun b => ilikeContains b.title t) else db.books
    | none => db.books
  let b2 :=
    match author with
    | some a => if a ≠ "" then b1.filter (fun b => ilikeContains b.author a) else b1
    | none => b1
  match year with
  | some y =>
      if y ≠ "" then
        match pyInt? y with
        | none => Except.error yearValueError
        | some n =>
            let b3 := b2.filter (fun b => b.year == some n)
            Except.ok { status := 200, success := true, count := b3.length, books := b3 }
      else Except.ok { status := 200, success := true, count := b2.length, books := b2 }
  | none => Except.ok { status := 200, success := true, count := b2.length, books := b2 }

/-- The three seed rows of `init_db`, inserted when the table is empty;
storage assigns ids 1, 2, 3 and the `created_at` default fills the server
clock. -/
def sample_books (now : Nat) : List Book :=
  [{ id := 1, title := "Python Crash Course", author := "Eric Matthes",
     year := some 2019, isbn := some "978-1593279288", created_at := some now },
   { id := 2, title := "Flask Web Development", author := "Miguel Grinberg",
     year := some 2018, isbn := some "978-1491991732", created_at := some now },
   { id := 3, title := "Clean Code", author := "Robert C. Martin",
     year := some 2008, isbn := some "978-0132350884", created_at := some now }]

/-- `init_db`: create the table and insert the sample rows when it is
empty. -/
def init_db (db : DB) (now : Nat) : DB :=
  if db.books.length = 0 then { books := sample_books now, nextId := 4 } else db

/-- The invariant claimed for persisted rows: `title` and `author` are
non-empty. -/
def booksValid (db : DB) : Prop :=
  ∀ b ∈ db.books, b.title ≠ "" ∧ b.author ≠ ""

instance (db : DB) : Decidable (booksValid db) := by
  unfold booksValid; infer_instance

/-- Primary-key well-formedness of the stored table: row ids are pairwise
distinct (enforced by the storage engine for a primary key column). -/
def idsNodup (db : DB) : Prop :=
  (db.books.map Book.id).Nodup

instance (db : DB) : Decidable (idsNodup db) := by
  unfold idsNodup; infer_instance

/-- A database seeded by `init_db` on an empty table at clock 0, shared by the
concrete instantiations below. -/
def dbSeed : DB :=
  { books := sample_books 0, nextId := 4 }

theorem length_insertLe (le : Book → Book → Bool) (x : Book) (l : List Book) :
    (insertLe le x l).length = l.length + 1 := by
  induction l with
  | nil => rfl
  | cons y ys ih =>
      unfold insertLe
      split <;> simp [ih]

theorem length_sortByLe (le : Book → Book → Bool) (l : List Book) :
    (sortByLe le l).length = l.length := by
  induction l with
  | nil => rfl
  | cons x xs ih => simp [sortByLe, length_insertLe, ih]

theorem mem_setBook_self {books : List Book} {id : Nat} {b2 : Book}
    (h : ∃ x ∈ books, x.id = id) : b2 ∈ setBook books id b2 := by
  induction books with
  | nil => simp at h
  | cons b rest ih =>
      unfold setBook
      by_cases hb : b.id = id
      · simp [hb]
      · rcases h with ⟨x, hx, hxid⟩
        rcases List.mem_cons.mp hx with rfl | hx2
        · exact absurd hxid hb
        · simp only [beq_iff_eq, hb, if_false]
          exact List.mem_cons_of_mem _ (ih ⟨x, hx2, hxid⟩)

theorem mem_setBook_of_ne {books : List Book} {id : Nat} {b2 x : Book}
    (hx : x ∈ books) (hne : x.id ≠ id) : x ∈ setBook books id b2 := by
  induction books with
  | nil => simp at hx
  | cons b rest ih =>
      unfold setBook
      rcases List.mem_cons.mp hx with rfl | hx2
      · simp [hne]
      · split
        · exact List.mem_cons_of_mem _ hx2
        · exact List.mem_cons_of_mem _ (ih hx2)

theorem mem_of_mem_setBook {books : List Book} {id : Nat} {b2 x : Book}
    (hx : x ∈ setBook books id b2) : x = b2 ∨ x ∈ books := by
  induction books with
  | nil => simp [setBook] at hx
  | cons b rest ih =>
      unfold setBook at hx
      split at hx
      · rcases List.mem_cons.mp hx with rfl | hx2
        · exact Or.inl rfl
        · exact Or.inr (List.mem_cons_of_mem _ hx2)
      · rcases List.mem_cons.mp hx with rfl | hx2
        · exact Or.inr (List.mem_cons_self _ _)
        · rcases ih hx2 with h | h
          · exact Or.inl h
          · exact Or.inr (List.mem_cons_of_mem _ h)

theorem mem_of_mem_removeBook {books : List Book} {id : Nat} {x : Book}
    (hx : x ∈ removeBook books id) : x ∈ books := by
  induction books with
  | nil => simp [removeBook] at hx
  | cons b rest ih =>
      unfold removeBook at hx
      split at hx
      · exact List.mem_cons_of_mem _ hx
      · rcases List.mem_cons.mp hx with rfl | hx2
        · exact List.mem_cons_self _ _
        · exact List.mem_cons_of_mem _ (ih hx2)

theorem findBook_eq_some_imp {db : DB} {id : Nat} {b : Book}
    (h : findBook db id = some b) : b ∈ db.books ∧ b.id = id := by
  refine ⟨List.mem_of_find?_eq_some h, ?_⟩
  have := List.find?_some h
  simpa using this

theorem find?_removeBook {books : List Book} {id : Nat}
    (h : (books.map Book.id).Nodup) :
    (removeBook books id).find? (fun b => b.id == id) = none := by
  induction books with
  | nil => rfl
  | cons b rest ih =>
      simp only [List.map_cons, List.nodup_cons] at h
      unfold removeBook
      split
      · rename_i hb
        have hbid : b.id = id := by simpa using hb
        refine List.find?_eq_none.mpr ?_
        intro x hx
        have : x.id ≠ b.id := by
          intro hxe
          exact h.1 (hxe ▸ List.mem_map_of_mem Book.id hx)
        simp [hbid ▸ this]
      · rename_i hb
        have : (removeBook rest id).find? (fun b => b.id == id) = none := ih h.2
        simp [List.find?_cons, hb, this]

theorem okPair_inv {ε α β : Type} {a c : α} {b d : β}
    (h : (Except.ok (a, b) : Except ε (α × β)) = Except.ok (c, d)) :
    a = c ∧ b = d := by
  rw [Except.ok.injEq, Prod.mk.injEq] at h
  exact h

theorem anyClash_of_two {x y : Book} {s : String}
    (hne : x ≠ y) (hxs : x.isbn = some s) (hys : y.isbn = some s) :
    ∀ {l : List Book}, x ∈ l → y ∈ l → anyClash l = true := by
  intro l
  induction l with
  | nil => intro hx; simp at hx
  | cons b rest ih =>
      intro hx hy
      unfold anyClash
      rcases List.mem_cons.mp hx with rfl | hx2
      · rcases List.mem_cons.mp hy with rfl | hy2
        · exact absurd rfl hne
        · have hc : isbnClash x y = true := by simp [isbnClash, hxs, hys]
          have : rest.any (fun z => isbnClash x z) = true :=
            List.any_eq_true.mpr ⟨y, hy2, hc⟩
          simp [this]
      · rcases List.mem_cons.mp hy with rfl | hy2
        · have hc : isbnClash y x = true := by simp [isbnClash, hxs, hys]
          have : rest.any (fun z => isbnClash y z) = true :=
            List.any_eq_true.mpr ⟨x, hx2, hc⟩
          simp [this]
        · simp [ih hx2 hy2]

theorem sortedBooks_ok_length {books : List Book} {c o : String} {l : List Book}
    (h : sortedBooks books c o = Except.ok l) : l.length = books.length := by
  unfold sortedBooks at h
  split at h
  · split at h
    · split at h
      · rw [Except.ok.injEq] at h
        subst h
        exact length_sortByLe _ _
      · rw [Except.ok.injEq] at h
        subst h
        exact length_sortByLe _ _
    · simp at h
  · rw [Except.ok.injEq] at h
    subst h
    rfl


/-- C4 fails on the code: the sort value to_dict does not name a Book field,
yet hasattr is true for it, so the handler takes the sorting branch and
crashes at the missing asc/desc methods instead of succeeding with 200. -/
theorem spec_c4_counterexample :
    bookColumns.contains "to_dict" = false ∧
    get_books dbSeed "to_dict" "asc" 1 10 = Except.error attributeErrorAsc :=
  ⟨by decide, rfl⟩

/-- C4 amended: if the sort parameter names no attribute of the Book class at
all, sorting is skipped and the request succeeds with a 200 response in the
storage natural order; but a sort value naming a non-column class attribute
(to_dict, query, metadata, ...) passes the hasattr guard and crashes the
handler with an uncaught AttributeError. -/
theorem spec_c4_amended (db : DB) (sort_column order : String) (page per_page : Nat) :
    (hasattrBook sort_column = false →
      get_books db sort_column order page per_page =
        Except.ok
          { status := 200
            success := true
            count := (paginateItems db.books page per_page).length
            total_books := db.books.length
            total_pages := totalPages db.books.length per_page
            current_page := clampPage page
            sort := sort_column
            order := order
            books := paginateItems db.books page per_page }) ∧
    (hasattrBook sort_column = true → bookColumns.contains sort_column = false →
      get_books db sort_column order page per_page =
        Except.error attributeErrorAsc) := by
  constructor
  · intro h
    simp [get_books, sortedBooks, h]
  · intro h hc
    have hc2 : sort_column ∉ bookColumns := by simpa using hc
    simp [get_books, sortedBooks, h, hc2]

/-- Concrete instantiation of `spec_c4_amended`: sort=publisher (no class
attribute) succeeds unsorted with 200, while sort=metadata (a non-column
class attribute) crashes. -/
theorem spec_c4_witness :
    (hasattrBook "publisher" = false ∧
      get_books dbSeed "publisher" "asc" 1 10 =
        Except.ok
          { status := 200
            success := true
            count := (paginateItems dbSeed.books 1 10).length
            total_books := dbSeed.books.length
            total_pages := totalPages dbSeed.books.length 10
            current_page := clampPage 1
            sort := "publisher"
            order := "asc"
            books := paginateItems dbSeed.books 1 10 }) ∧
    (hasattrBook "metadata" = true ∧ bookColumns.contains "metadata" = false ∧
      get_books dbSeed "metadata" "desc" 1 10 = Except.error attributeErrorAsc) :=
  ⟨⟨by decide, (spec_c4_amended dbSeed "publisher" "asc" 1 10).1 (by decide)⟩,
   ⟨by decide, by decide,
    (spec_c4_amended dbSeed "metadata" "desc" 1 10).2 (by decide) (by decide)⟩⟩

/-- C10: the list handler never validates the order parameter; any order
string whose lowercasing is not "desc" produces exactly the outcome of the
ascending request, with the supplied order string echoed back verbatim in
the response. -/
theorem spec_c10 (db : DB) (sort_column order : String) (page per_page : Nat)
    (h : pyLower order ≠ "desc") :
    get_books db sort_column order page per_page =
      Except.map (fun r => { r with order := order })
        (get_books db sort_column "asc" page per_page) := by
  have hasc : pyLower "asc" ≠ "desc" := by decide
  have hs : sortedBooks db.books sort_column order =
      sortedBooks db.books sort_column "asc" := by
    simp [sortedBooks, h, hasc]
  unfold get_books
  rw [hs]
  cases sortedBooks db.books sort_column "asc" with
  | error e => rfl
  | ok l => rfl

/-- Concrete instantiation of `spec_c10`: the invalid order value
"DESCENDING" yields the ascending outcome with the string echoed back. -/
theorem spec_c10_witness :
    pyLower "DESCENDING" ≠ "desc" ∧
    get_books dbSeed "year" "DESCENDING" 1 10 =
      Except.map (fun r => { r with order := "DESCENDING" })
        (get_books dbSeed "year" "asc" 1 10) :=
  ⟨by decide, spec_c10 dbSeed "year" "DESCENDING" 1 10 (by decide)⟩

/-- C7 fails on the code as universally stated: the list request with
sort=query, page=1, per_page=10 crashes with an uncaught AttributeError
instead of returning the 200 pagination payload. -/
theorem spec_c7_counterexample :
    (1 : Nat) ≤ 1 ∧ (1 : Nat) ≤ 10 ∧
    get_books dbSeed "query" "asc" 1 10 = Except.error attributeErrorAsc :=
  ⟨by decide, by decide, rfl⟩

/-- C7 amended: provided the sort parameter does not name a non-column class
attribute (it is a Book column or no attribute at all), with positive page
and per_page the 200 response reports the item count of the page, the total
item count, the total page count and the current page; an out-of-range page
yields an empty list with success still true; and per_page=2, page=2 over
the 3 seeded books returns exactly 1 book with total_books=3 and
total_pages=2. -/
theorem spec_c7_amended (db : DB) (sort_column order : String) (page per_page : Nat)
    (hp : 1 ≤ page) (hk : 1 ≤ per_page)
    (hsort : hasattrBook sort_column = false ∨
      bookColumns.contains sort_column = true) :
    (∃ r, get_books db sort_column order page per_page = Except.ok r ∧
      r.status = 200 ∧ r.success = true ∧ r.current_page = page ∧
      r.total_books = db.books.length ∧
      r.total_pages = (db.books.length + per_page - 1) / per_page ∧
      r.count = r.books.length ∧
      (db.books.length ≤ (page - 1) * per_page → r.books = [])) ∧
    (∃ r, get_books dbSeed "id" "asc" 2 2 = Except.ok r ∧
      r.count = 1 ∧ r.total_books = 3 ∧ r.total_pages = 2) := by
  have hcp : clampPage page = page := by
    unfold clampPage
    rw [if_neg (by omega)]
  have hck : clampPerPage per_page = per_page := by
    unfold clampPerPage
    rw [if_neg (by omega)]
  constructor
  · obtain ⟨sorted, hs, hlen⟩ :
        ∃ l, sortedBooks db.books sort_column order = Except.ok l ∧
          l.length = db.books.length := by
      rcases hsort with h | h
      · exact ⟨db.books, by simp [sortedBooks, h], rfl⟩
      · have hattr : hasattrBook sort_column = true := by
          unfold hasattrBook
          rw [h]
          rfl
        have hmem : sort_column ∈ bookColumns := by simpa using h
        by_cases hd : pyLower order = "desc"
        · exact ⟨sortByLe (fun a b => fieldLe sort_column b a) db.books,
            by simp [sortedBooks, hattr, hmem, hd], length_sortByLe _ _⟩
        · exact ⟨sortByLe (fieldLe sort_column) db.books,
            by simp [sortedBooks, hattr, hmem, hd], length_sortByLe _ _⟩
    refine ⟨{ status := 200
              success := true
              count := (paginateItems sorted page per_page).length
              total_books := sorted.length
              total_pages := totalPages sorted.length per_page
              current_page := clampPage page
              sort := sort_column
              order := order
              books := paginateItems sorted page per_page },
      ?_, rfl, rfl, ?_, ?_, ?_, rfl, ?_⟩
    · simp [get_books, hs]
    · simp [hcp]
    · simp [hlen]
    · simp [totalPages, hck, hlen]
    · intro hout
      simp only [paginateItems, hcp, hck]
      have hl2 : sorted.length ≤ (page - 1) * per_page := by
        rw [hlen]
        exact hout
      rw [List.drop_eq_nil_of_le hl2, List.take_nil]
  · exact ⟨{ status := 200, success := true, count := 1, total_books := 3,
             total_pages := 2, current_page := 2, sort := "id", order := "asc",
             books := [{ id := 3, title := "Clean Code",
                         author := "Robert C. Martin", year := some 2008,
                         isbn := some "978-0132350884", created_at := some 0 }] },
      rfl, rfl, rfl, rfl⟩

/-- Concrete instantiation of `spec_c7_amended`: page 5 of size 2 over the 3
seeded books is out of range and comes back empty but successful, and page 2
of size 2 returns 1 book with total 3 and 2 pages. -/
theorem spec_c7_witness :
    ((1 : Nat) ≤ 5 ∧ (1 : Nat) ≤ 2 ∧
      (hasattrBook "id" = false ∨ bookColumns.contains "id" = true)) ∧
    (∃ r, get_books dbSeed "id" "asc" 5 2 = Except.ok r ∧
      r.success = true ∧ r.books = []) ∧
    (∃ r, get_books dbSeed "id" "asc" 2 2 = Except.ok r ∧
      r.count = 1 ∧ r.total_books = 3 ∧ r.total_pages = 2) := by
  have h := spec_c7_amended dbSeed "id" "asc" 5 2 (by decide) (by decide)
    (Or.inr (by decide))
  obtain ⟨⟨r, hr, hst, hsu, hcur, htb, htp, hcnt, hout⟩, hconc⟩ := h
  exact ⟨⟨by decide, by decide, Or.inr (by decide)⟩,
    ⟨r, hr, hsu, hout (by decide)⟩, hconc⟩

/-- C9: deleting an existing Book succeeds with a 200 confirmation and
removes it, so a subsequent get by the same id returns the 404 not-found
response; deleting an id with no Book returns 404 and leaves the database
unchanged. -/
theorem spec_c9 (db : DB) (id : Nat) (h : idsNodup db) :
    (∀ b, findBook db id = some b →
      (delete_book db id).1 =
        { status := 200, success := true,
          message := some "Book deleted successfully" } ∧
      get_book (delete_book db id).2 id =
        { status := 404, success := false, error := some "Book not found" }) ∧
    (findBook db id = none →
      delete_book db id =
        ({ status := 404, success := false, error := some "Book not found" }, db)) := by
  constructor
  · intro b hfind
    have hrem : findBook { db with books := removeBook db.books id } id = none :=
      find?_removeBook h
    constructor
    · simp [delete_book, hfind]
    · simp [delete_book, hfind, get_book, hrem]
  · intro hnone
    simp [delete_book, hnone]

/-- Concrete instantiation of `spec_c9` on the seeded database: deleting book
2 succeeds and a following get of id 2 is a 404; deleting the absent id 7 is
a 404. -/
theorem spec_c9_witness :
    idsNodup dbSeed ∧
    (delete_book dbSeed 2).1.status = 200 ∧
    (get_book (delete_book dbSeed 2).2 2).status = 404 ∧
    (get_book (delete_book dbSeed 2).2 2).success = false ∧
    (delete_book dbSeed 7).1.status = 404 := by
  have h := spec_c9 dbSeed 2 (by decide)
  have h7 := spec_c9 dbSeed 7 (by decide)
  have h2 := h.1 ((sample_books 0).get ⟨1, by decide⟩) (by decide)
  refine ⟨by decide, ?_, ?_, ?_, ?_⟩
  · rw [h2.1]
  · rw [h2.2]
  · rw [h2.2]
  · rw [h7.2 (by decide)]

/-- C8: for every create that succeeds (a 201 outcome), an immediate get
with the returned id succeeds and returns the very row the create returned;
every field set on create (title, author, year, isbn) is carried over
unchanged, while created_at is assigned from the server clock rather than
the input. -/
theorem spec_c8 (db : DB) (d : CreateData) (now : Nat) (resp : BookResp) (db2 : DB)
    (hfresh : ∀ b ∈ db.books, b.id ≠ db.nextId)
    (hok : create_book db (some d) now = Except.ok (resp, db2))
    (h201 : resp.status = 201) :
    resp.success = true ∧
    resp.book = some (newBook db d now) ∧
    db2 = { books := db.books ++ [newBook db d now], nextId := db.nextId + 1 } ∧
    get_book db2 (newBook db d now).id =
      { status := 200, success := true, book := some (newBook db d now) } ∧
    (∀ t, d.title = some t → (newBook db d now).title = t) ∧
    (∀ a, d.author = some a → (newBook db d now).author = a) ∧
    (newBook db d now).year = d.year ∧
    (newBook db d now).isbn = d.isbn ∧
    (newBook db d now).created_at = some now := by
  simp only [create_book] at hok
  split at hok
  · obtain ⟨h1, h2⟩ := okPair_inv hok
    rw [← h1] at h201
    simp at h201
  · split at hok
    · obtain ⟨h1, h2⟩ := okPair_inv hok
      rw [← h1] at h201
      simp at h201
    · split at hok
      · obtain ⟨h1, h2⟩ := okPair_inv hok
        rw [← h1] at h201
        simp at h201
      · split at hok
        · exact absurd hok (by simp)
        · obtain ⟨h1, h2⟩ := okPair_inv hok
          subst h1
          subst h2
          have hget :
              findBook { books := db.books ++ [newBook db d now],
                         nextId := db.nextId + 1 }
                (newBook db d now).id = some (newBook db d now) := by
            unfold findBook
            simp only [List.find?_append]
            have hnone :
                db.books.find? (fun b => b.id == (newBook db d now).id) = none := by
              refine List.find?_eq_none.mpr ?_
              intro x hx
              simpa [newBook] using hfresh x hx
            rw [hnone]
            simp [newBook]
          refine ⟨rfl, rfl, rfl, ?_, ?_, ?_, rfl, rfl, rfl⟩
          · simp [get_book, hget]
          · intro t hti
            simp [newBook, hti]
          · intro a hau
            simp [newBook, hau]

/-- Concrete instantiation of `spec_c8`: creating a fourth book in the seeded
database succeeds with 201 and immediately fetching the returned id gives
back the same row with all input fields intact and a server-assigned
created_at. -/
theorem spec_c8_witness :
    ((∀ b ∈ dbSeed.books, b.id ≠ dbSeed.nextId) ∧
      create_book dbSeed
          (some { title := some "New Book", author := some "Some Author",
                  year := some 2024, isbn := some "978-0000000000" }) 9 =
        Except.ok
          ({ status := 201, success := true,
             message := some "Book created successfully",
             book := some (newBook dbSeed
               { title := some "New Book", author := some "Some Author",
                 year := some 2024, isbn := some "978-0000000000" } 9) },
           { books := dbSeed.books ++ [newBook dbSeed
               { title := some "New Book", author := some "Some Author",
                 year := some 2024, isbn := some "978-0000000000" } 9],
             nextId := dbSeed.nextId + 1 })) ∧
    get_book
        { books := dbSeed.books ++ [newBook dbSeed
            { title := some "New Book", author := some "Some Author",
              year := some 2024, isbn := some "978-0000000000" } 9],
          nextId := dbSeed.nextId + 1 }
        (newBook dbSeed
          { title := some "New Book", author := some "Some Author",
            year := some 2024, isbn := some "978-0000000000" } 9).id =
      { status := 200, success := true,
        book := some (newBook dbSeed
          { title := some "New Book", author := some "Some Author",
            year := some 2024, isbn := some "978-0000000000" } 9) } := by
  have h := spec_c8 dbSeed
    { title := some "New Book", author := some "Some Author",
      year := some 2024, isbn := some "978-0000000000" } 9
    { status := 201, success := true,
      message := some "Book created successfully",
      book := some (newBook dbSeed
        { title := some "New Book", author := some "Some Author",
          year := some 2024, isbn := some "978-0000000000" } 9) }
    { books := dbSeed.books ++ [newBook dbSeed
        { title := some "New Book", author := some "Some Author",
          year := some 2024, isbn := some "978-0000000000" } 9],
      nextId := dbSeed.nextId + 1 }
    (by decide) rfl rfl
  exact ⟨⟨by decide, rfl⟩, h.2.2.2.1⟩

/-- C5 fails on the code as universally stated: an update body whose isbn
duplicates the isbn of a different row (here book 3 of the seed receiving
the isbn of book 2) makes the commit violate UNIQUE(isbn); the handler
raises an uncaught IntegrityError and stores nothing, instead of returning
the updated representation. -/
theorem spec_c5_counterexample :
    UpdateData.isEmpty { isbn := some (some "978-1491991732") } = false ∧
    update_book dbSeed 3 (some { isbn := some (some "978-1491991732") }) =
      Except.error integrityErrorIsbn :=
  ⟨by decide, rfl⟩

/-- C5 amended: when the committed row respects the UNIQUE(isbn) constraint,
a successful update overwrites exactly the fields present in the body,
absent fields keep their prior values, and id and created_at are never
changed; when the written isbn duplicates another row, the commit raises an
uncaught IntegrityError and nothing is overwritten. -/
theorem spec_c5_amended (db : DB) (id : Nat) (book : Book) (d : UpdateData)
    (hfind : findBook db id = some book) (hne : d.isEmpty = false) :
    (anyClash (setBook db.books id (applyUpdate d book)) = false →
      ∃ b2,
        update_book db id (some d) =
          Except.ok
            ({ status := 200, success := true,
               message := some "Book updated successfully", book := some b2 },
             { db with books := setBook db.books id b2 }) ∧
        b2.id = book.id ∧
        b2.created_at = book.created_at ∧
        (∀ t, d.title = some t → b2.title = t) ∧
        (d.title = none → b2.title = book.title) ∧
        (∀ a, d.author = some a → b2.author = a) ∧
        (d.author = none → b2.author = book.author) ∧
        (∀ y, d.year = some y → b2.year = y) ∧
        (d.year = none → b2.year = book.year) ∧
        (∀ i, d.isbn = some i → b2.isbn = i) ∧
        (d.isbn = none → b2.isbn = book.isbn)) ∧
    (anyClash (setBook db.books id (applyUpdate d book)) = true →
      update_book db id (some d) = Except.error integrityErrorIsbn) := by
  constructor
  · intro hcommit
    refine ⟨applyUpdate d book, ?_, rfl, rfl, ?_, ?_, ?_, ?_, ?_, ?_, ?_, ?_⟩
    · simp [update_book, hfind, hne, hcommit]
    · intro t hti
      simp [applyUpdate, hti]
    · intro hti
      simp [applyUpdate, hti]
    · intro a hau
      simp [applyUpdate, hau]
    · intro hau
      simp [applyUpdate, hau]
    · intro y hy
      simp [applyUpdate, hy]
    · intro hy
      simp [applyUpdate, hy]
    · intro i hi
      simp [applyUpdate, hi]
    · intro hi
      simp [applyUpdate, hi]
  · intro hclash
    simp [update_book, hfind, hne, hclash]

/-- Concrete instantiation of `spec_c5_amended`: updating book 1 of the
seeded database with only an author change succeeds and leaves title, year,
isbn, id and created_at untouched. -/
theorem spec_c5_witness :
    (findBook dbSeed 1 = some ((sample_books 0).get ⟨0, by decide⟩) ∧
      UpdateData.isEmpty { author := some "Someone Else" } = false ∧
      anyClash (setBook dbSeed.books 1
        (applyUpdate { author := some "Someone Else" }
          ((sample_books 0).get ⟨0, by decide⟩))) = false) ∧
    ∃ b2,
      update_book dbSeed 1 (some { author := some "Someone Else" }) =
        Except.ok
          ({ status := 200, success := true,
             message := some "Book updated successfully", book := some b2 },
           { dbSeed with books := setBook dbSeed.books 1 b2 }) ∧
      b2.author = "Someone Else" ∧
      b2.title = "Python Crash Course" ∧
      b2.year = some 2019 ∧
      b2.isbn = some "978-1593279288" ∧
      b2.id = 1 ∧
      b2.created_at = some 0 := by
  have h := (spec_c5_amended dbSeed 1 ((sample_books 0).get ⟨0, by decide⟩)
    { author := some "Someone Else" } (by decide) (by decide)).1 (by decide)
  rcases h with ⟨b2, hresp, hid, hcr, _, htN, haS, _, _, hyN, _, hiN⟩
  refine ⟨⟨by decide, by decide, by decide⟩, b2, hresp,
    haS "Someone Else" rfl, ?_, ?_, ?_, ?_, ?_⟩
  · rw [htN rfl]
    decide
  · rw [hyN rfl]
    decide
  · rw [hiN rfl]
    decide
  · rw [hid]
    decide
  · rw [hcr]
    decide

/-- C2 fails on the code: the handler skips any application-level ISBN
re-check, but the storage UNIQUE(isbn) constraint rejects the commit;
updating book 1 of the seed to the isbn of book 3 raises an uncaught
IntegrityError instead of succeeding, and no two rows come to share the
ISBN. -/
theorem spec_c2_counterexample :
    findBook dbSeed 1 = some ((sample_books 0).get ⟨0, by decide⟩) ∧
    ((sample_books 0).get ⟨2, by decide⟩).isbn = some "978-0132350884" ∧
    update_book dbSeed 1 (some { isbn := some (some "978-0132350884") }) =
      Except.error integrityErrorIsbn :=
  ⟨by decide, by decide, rfl⟩

/-- C2 amended: the update handler performs no application-level ISBN
re-check, but the commit is still guarded by the storage UNIQUE(isbn)
constraint: updating an existing book with the isbn of a different persisted
book raises an uncaught IntegrityError (generic server error) and the
transaction is rolled back; moreover every update outcome that does commit
preserves the property that no two rows clash on a non-null isbn. -/
theorem spec_c2_amended (db : DB) (id : Nat) (b1 b2 : Book) (s : String)
    (d : UpdateData)
    (hfind : findBook db id = some b1)
    (hb2 : b2 ∈ db.books) (hb2id : b2.id ≠ id) (hb2isbn : b2.isbn = some s)
    (hd : d.isbn = some (some s)) :
    update_book db id (some d) = Except.error integrityErrorIsbn ∧
    (∀ (data : Option UpdateData) (resp : BookResp) (db2 : DB),
      anyClash db.books = false →
      update_book db id data = Except.ok (resp, db2) →
      anyClash db2.books = false) := by
  have hne : d.isEmpty = false := by
    simp [UpdateData.isEmpty, hd]
  have hb1 := findBook_eq_some_imp hfind
  constructor
  · have hxisbn : (applyUpdate d b1).isbn = some s := by
      simp [applyUpdate, hd]
    have hxid : (applyUpdate d b1).id = id := by
      simp [applyUpdate, hb1.2]
    have hxy : applyUpdate d b1 ≠ b2 := by
      intro he
      exact hb2id (by rw [← he, hxid])
    have hclash : anyClash (setBook db.books id (applyUpdate d b1)) = true :=
      anyClash_of_two hxy hxisbn hb2isbn
        (mem_setBook_self ⟨b1, hb1.1, hb1.2⟩)
        (mem_setBook_of_ne hb2 hb2id)
    simp [update_book, hfind, hne, hclash]
  · intro data resp db2 hvalid hok
    cases data with
    | none =>
        simp only [update_book, hfind] at hok
        obtain ⟨h1, h2⟩ := okPair_inv hok
        rw [← h2]
        exact hvalid
    | some dd =>
        simp only [update_book, hfind] at hok
        split at hok
        · obtain ⟨h1, h2⟩ := okPair_inv hok
          rw [← h2]
          exact hvalid
        · split at hok
          · exact absurd hok (by simp)
          · rename_i hcl
            obtain ⟨h1, h2⟩ := okPair_inv hok
            rw [← h2]
            simpa using hcl

/-- Concrete instantiation of `spec_c2_amended`: updating book 2 of the
seeded database to the isbn of book 1 raises the IntegrityError. -/
theorem spec_c2_witness :
    (findBook dbSeed 2 = some ((sample_books 0).get ⟨1, by decide⟩) ∧
      (sample_books 0).get ⟨0, by decide⟩ ∈ dbSeed.books ∧
      ((sample_books 0).get ⟨0, by decide⟩).id ≠ 2 ∧
      ((sample_books 0).get ⟨0, by decide⟩).isbn = some "978-1593279288") ∧
    update_book dbSeed 2 (some { isbn := some (some "978-1593279288") }) =
      Except.error integrityErrorIsbn := by
  have h := spec_c2_amended dbSeed 2 ((sample_books 0).get ⟨1, by decide⟩)
    ((sample_books 0).get ⟨0, by decide⟩) "978-1593279288"
    { isbn := some (some "978-1593279288") }
    (by decide) (by decide) (by decide) (by decide) rfl
  exact ⟨⟨by decide, by decide, by decide, by decide⟩, h.1⟩

/-- C6 fails on the code: an isbn given as the empty string is falsy, so the
duplicate check is skipped, and when a row with the empty-string isbn
already exists the INSERT violates UNIQUE(isbn): the second create below
raises an uncaught IntegrityError, an outcome the claimed 400/201 taxonomy
does not contain. -/
theorem spec_c6_counterexample :
    create_book { books := [], nextId := 1 }
        (some { title := some "T", author := some "A", isbn := some "" }) 0 =
      Except.ok
        ({ status := 201, success := true,
           message := some "Book created successfully",
           book := some { id := 1, title := "T", author := "A", year := none,
                          isbn := some "", created_at := some 0 } },
         { books := [{ id := 1, title := "T", author := "A", year := none,
                       isbn := some "", created_at := some 0 }], nextId := 2 }) ∧
    create_book
        { books := [{ id := 1, title := "T", author := "A", year := none,
                      isbn := some "", created_at := some 0 }], nextId := 2 }
        (some { title := some "U", author := some "B", isbn := some "" }) 0 =
      Except.error integrityErrorIsbn :=
  ⟨rfl, rfl⟩

/-- C6 amended: the create handler validates in order: a missing,
unparseable or falsy body gives 400 "No data provided"; otherwise an empty
or missing title or author gives 400 "Title and author are required";
otherwise a truthy isbn already used by an existing Book gives 400 "ISBN
already exists"; otherwise the INSERT commits and returns the new Book with
201 unless it violates the storage UNIQUE(isbn) constraint (reachable only
with an isbn given as the empty string duplicating an existing empty-string
isbn), in which case the handler raises an uncaught IntegrityError. -/
theorem spec_c6_amended (db : DB) (now : Nat) :
    (create_book db none now =
      Except.ok ({ status := 400, success := false,
                   error := some "No data provided" }, db)) ∧
    (∀ d : CreateData, d.isEmptyDict = true →
      create_book db (some d) now =
        Except.ok ({ status := 400, success := false,
                     error := some "No data provided" }, db)) ∧
    (∀ d : CreateData, d.isEmptyDict = false →
      (truthy d.title = false ∨ truthy d.author = false) →
      create_book db (some d) now =
        Except.ok ({ status := 400, success := false,
                     error := some "Title and author are required" }, db)) ∧
    (∀ d : CreateData, truthy d.title = true → truthy d.author = true →
      truthy d.isbn = true →
      (db.books.find? (fun b => b.isbn == d.isbn)).isSome = true →
      create_book db (some d) now =
        Except.ok ({ status := 400, success := false,
                     error := some "ISBN already exists" }, db)) ∧
    (∀ d : CreateData, truthy d.title = true → truthy d.author = true →
      (truthy d.isbn && (db.books.find? (fun b => b.isbn == d.isbn)).isSome) = false →
      anyClash (db.books ++ [newBook db d now]) = false →
      create_book db (some d) now =
        Except.ok
          ({ status := 201, success := true,
             message := some "Book created successfully",
             book := some (newBook db d now) },
           { books := db.books ++ [newBook db d now],
             nextId := db.nextId + 1 })) ∧
    (∀ d : CreateData, truthy d.title = true → truthy d.author = true →
      (truthy d.isbn && (db.books.find? (fun b => b.isbn == d.isbn)).isSome) = false →
      anyClash (db.books ++ [newBook db d now]) = true →
      create_book db (some d) now = Except.error integrityErrorIsbn) := by
  have hemptyOf : ∀ d : CreateData, truthy d.title = true →
      d.isEmptyDict = false := by
    intro d ht
    cases hd : d.title with
    | none =>
        rw [hd] at ht
        simp [truthy] at ht
    | some t => simp [CreateData.isEmptyDict, hd]
  refine ⟨rfl, ?_, ?_, ?_, ?_, ?_⟩
  · intro d hd
    simp [create_book, hd]
  · intro d hd hta
    have h2 : (!truthy d.title || !truthy d.author) = true := by
      rcases hta with hh | hh <;> simp [hh]
    simp [create_book, hd, h2]
  · intro d ht ha hi hdup
    simp [create_book, hemptyOf d ht, ht, ha, hi, hdup]
  · intro d ht ha hdup hcl
    simp [create_book, hemptyOf d ht, ht, ha, hdup, hcl]
  · intro d ht ha hdup hcl
    simp [create_book, hemptyOf d ht, ht, ha, hdup, hcl]

/-- Concrete instantiation of `spec_c6_amended` on the seeded database:
missing body, empty author, and duplicate truthy isbn all fail with 400,
and a fresh valid body is persisted with 201. -/
theorem spec_c6_witness :
    (CreateData.isEmptyDict { title := some "X", author := some "" } = false ∧
      truthy (some "" : Option String) = false) ∧
    create_book dbSeed none 0 =
      Except.ok ({ status := 400, success := false,
                   error := some "No data provided" }, dbSeed) ∧
    create_book dbSeed (some { title := some "X", author := some "" }) 0 =
      Except.ok ({ status := 400, success := false,
                   error := some "Title and author are required" }, dbSeed) ∧
    create_book dbSeed
        (some { title := some "X", author := some "Y",
                isbn := some "978-1593279288" }) 0 =
      Except.ok ({ status := 400, success := false,
                   error := some "ISBN already exists" }, dbSeed) ∧
    create_book dbSeed (some { title := some "X", author := some "Y" }) 0 =
      Except.ok
        ({ status := 201, success := true,
           message := some "Book created successfully",
           book := some (newBook dbSeed
             { title := some "X", author := some "Y" } 0) },
         { books := dbSeed.books ++
             [newBook dbSeed { title := some "X", author := some "Y" } 0],
           nextId := dbSeed.nextId + 1 }) := by
  have h := spec_c6_amended dbSeed 0
  refine ⟨⟨by decide, by decide⟩, h.1, ?_, ?_, ?_⟩
  · exact h.2.2.1 { title := some "X", author := some "" }
      (by decide) (Or.inr (by decide))
  · exact h.2.2.2.1
      { title := some "X", author := some "Y", isbn := some "978-1593279288" }
      (by decide) (by decide) (by decide) (by decide)
  · exact h.2.2.2.2.1 { title := some "X", author := some "Y" }
      (by decide) (by decide) (by decide) (by decide)

/-- C1 fails on the code: the update handler copies body values into the row
without any validation, so the sequence create (valid, 201) then update with
an empty title (200) leaves a persisted Book whose title is the empty
string. -/
theorem spec_c1_counterexample :
    create_book { books := [], nextId := 1 }
        (some { title := some "T", author := some "A" }) 0 =
      Except.ok
        ({ status := 201, success := true,
           message := some "Book created successfully",
           book := some { id := 1, title := "T", author := "A", year := none,
                          isbn := none, created_at := some 0 } },
         { books := [{ id := 1, title := "T", author := "A", year := none,
                       isbn := none, created_at := some 0 }], nextId := 2 }) ∧
    update_book
        { books := [{ id := 1, title := "T", author := "A", year := none,
                      isbn := none, created_at := some 0 }], nextId := 2 } 1
        (some { title := some "" }) =
      Except.ok
        ({ status := 200, success := true,
           message := some "Book updated successfully",
           book := some { id := 1, title := "", author := "A", year := none,
                          isbn := none, created_at := some 0 } },
         { books := [{ id := 1, title := "", author := "A", year := none,
                       isbn := none, created_at := some 0 }], nextId := 2 }) :=
  ⟨rfl, rfl⟩

/-- C1 amended: create, delete and seed preserve the non-emptiness of title
and author of every persisted Book, and update preserves it exactly when
every title or author value present in the body is non-empty; update
performs no validation of its own, so bodies carrying empty strings break
the invariant. -/
theorem spec_c1_amended (db : DB) (data : Option CreateData) (d : UpdateData)
    (id : Nat) (now : Nat)
    (hv : booksValid db)
    (htitle : ∀ t, d.title = some t → t ≠ "")
    (hauthor : ∀ a, d.author = some a → a ≠ "") :
    (∀ resp db2, create_book db data now = Except.ok (resp, db2) →
      booksValid db2) ∧
    booksValid (delete_book db id).2 ∧
    booksValid (init_db db now) ∧
    (∀ resp db2, update_book db id (some d) = Except.ok (resp, db2) →
      booksValid db2) := by
  refine ⟨?_, ?_, ?_, ?_⟩
  · intro resp db2 hok
    cases data with
    | none =>
        obtain ⟨h1, h2⟩ := okPair_inv hok
        rw [← h2]
        exact hv
    | some dd =>
        simp only [create_book] at hok
        split at hok
        · obtain ⟨h1, h2⟩ := okPair_inv hok
          rw [← h2]
          exact hv
        · split at hok
          · obtain ⟨h1, h2⟩ := okPair_inv hok
            rw [← h2]
            exact hv
          · split at hok
            · obtain ⟨h1, h2⟩ := okPair_inv hok
              rw [← h2]
              exact hv
            · split at hok
              · exact absurd hok (by simp)
              · rename_i hempty hreq hdup hcl
                obtain ⟨h1, h2⟩ := okPair_inv hok
                rw [← h2]
                intro b hb
                rcases List.mem_append.mp hb with hb1 | hb2
                · exact hv b hb1
                · have hbe : b = newBook db dd now := by simpa using hb2
                  subst hbe
                  have ht : truthy dd.title = true ∧ truthy dd.author = true := by
                    simpa using hreq
                  constructor
                  · cases hdt : dd.title with
                    | none =>
                        rw [hdt] at ht
                        simp [truthy] at ht
                    | some t =>
                        rw [hdt] at ht
                        have : t ≠ "" := by simpa [truthy] using ht.1
                        simpa [newBook, hdt] using this
                  · cases hda : dd.author with
                    | none =>
                        rw [hda] at ht
                        simp [truthy] at ht
                    | some a =>
                        rw [hda] at ht
                        have : a ≠ "" := by simpa [truthy] using ht.2
                        simpa [newBook, hda] using this
  · unfold delete_book
    split
    · exact hv
    · intro b hb
      exact hv b (mem_of_mem_removeBook hb)
  · unfold init_db
    split
    · intro b hb
      simp only [sample_books, List.mem_cons, List.not_mem_nil, or_false] at hb
      rcases hb with rfl | rfl | rfl <;> · dsimp only
                                           decide
    · exact hv
  · intro resp db2 hok
    cases hfind : findBook db id with
    | none =>
        simp only [update_book, hfind] at hok
        obtain ⟨h1, h2⟩ := okPair_inv hok
        rw [← h2]
        exact hv
    | some book =>
        simp only [update_book, hfind] at hok
        split at hok
        · obtain ⟨h1, h2⟩ := okPair_inv hok
          rw [← h2]
          exact hv
        · split at hok
          · exact absurd hok (by simp)
          · obtain ⟨h1, h2⟩ := okPair_inv hok
            rw [← h2]
            intro b hb
            rcases mem_of_mem_setBook hb with rfl | hbm
            · have hbook := (findBook_eq_some_imp hfind).1
              constructor
              · cases hdt : d.title with
                | none => simpa [applyUpdate, hdt] using (hv book hbook).1
                | some t => simpa [applyUpdate, hdt] using htitle t hdt
              · cases hda : d.author with
                | none => simpa [applyUpdate, hda] using (hv book hbook).2
                | some a => simpa [applyUpdate, hda] using hauthor a hda
            · exact hv b hbm

/-- Concrete instantiation of `spec_c1_amended` on the seeded database with
a valid create body and a benign update body. -/
theorem spec_c1_witness :
    (booksValid dbSeed ∧
      (∀ t, ({ title := some "New Title" } : UpdateData).title = some t →
        t ≠ "") ∧
      (∀ a, ({ title := some "New Title" } : UpdateData).author = some a →
        a ≠ "")) ∧
    booksValid
      { books := dbSeed.books ++
          [newBook dbSeed { title := some "X", author := some "Y" } 7],
        nextId := dbSeed.nextId + 1 } := by
  have h := spec_c1_amended dbSeed
    (some { title := some "X", author := some "Y" })
    { title := some "New Title" } 1 7
    (by decide)
    (by intro t ht; cases ht; decide)
    (by intro a ha; cases ha)
  exact ⟨⟨by decide, by intro t ht; cases ht; decide, by intro a ha; cases ha⟩,
    h.1
      { status := 201, success := true,
        message := some "Book created successfully",
        book := some (newBook dbSeed
          { title := some "X", author := some "Y" } 7) }
      { books := dbSeed.books ++
          [newBook dbSeed { title := some "X", author := some "Y" } 7],
        nextId := dbSeed.nextId + 1 }
      rfl⟩

/-- C3 fails on the code: a search whose year parameter is non-numeric makes
`int(year)` raise an uncaught ValueError; the handler produces no structured
400 response. -/
theorem spec_c3_counterexample :
    search_books dbSeed none none (some "abc") = Except.error yearValueError :=
  rfl

/-- C3 amended: for every search request whose year parameter is present,
non-empty and non-numeric, the handler raises the uncaught `int()` ValueError
(surfacing as a generic server error) instead of returning a response. -/
theorem spec_c3_amended (db : DB) (q a : Option String) (y : String)
    (hy : y ≠ "") (hnum : pyInt? y = none) :
    search_books db q a (some y) = Except.error yearValueError := by
  simp [search_books, hy, hnum]

/-- Concrete instantiation of `spec_c3_amended` with year `19xx`. -/
theorem spec_c3_witness :
    ("19xx" ≠ "" ∧ pyInt? "19xx" = none) ∧
    search_books dbSeed (some "python") none (some "19xx") =
      Except.error yearValueError :=
  ⟨⟨by decide, by decide⟩,
    spec_c3_amended dbSeed (some "python") none "19xx" (by decide) (by decide)⟩

end BookApi
